import Mathlib

/-!
Verification development for the Wyckoff-1Min-Reader pipeline (`src/main.py`).

The whole program is a batch pipeline: for each symbol and each intraday
timeframe it fetches OHLCV bars from a market-data gateway, repairs
zero-open bars, appends moving-average columns, renders a chart, queries an
AI pattern oracle with a provider fallback chain, builds a PDF report, and
collects the emitted PDF paths into a push list written at the end of the
run.

The embedding below models the pure data transformations directly from the
source (`fetch_stock_data`, `add_indicators`, `call_ai_api`,
`generate_pdf_report`, `process_one_stock`, `main`).  Effectful collaborator
calls (the akshare gateway, mplfinance chart rendering, the Qwen/Gemini HTTP
calls, the PDF writer) are modelled by environment records carrying each
collaborator's outcome (`Except` values: `.error` stands for a raised
exception), and the unit processor records the externally observable calls
it makes in an effect trace.  Prices and volumes are modelled as rationals
(the Python floats carry exact decimal market data here; no float rounding
is load-bearing for any claim).
-/

namespace Wyckoff

/-- One OHLCV bar, `main.py` lines 40-48: columns date/open/high/low/close/
volume, prices and volume cast to float.  `open` is a Lean keyword, hence
the field name `open_`. -/
structure Bar where
  date : Int
  open_ : ℚ
  high : ℚ
  low : ℚ
  close : ℚ
  volume : ℚ
  deriving DecidableEq, Repr

/-- `''.join(filter(str.isdigit, symbol))`, `main.py` line 23.  Python's
`str.isdigit` on the ASCII range coincides with `Char.isDigit`; the symbols
this program handles are A-share codes (ASCII digits, dots, letters, CJK
names). -/
def symbol_code (symbol : String) : String :=
  String.mk (symbol.toList.filter Char.isDigit)

/-- Zero-open repair, `main.py` lines 50-54:
`df["open"] = df["open"].replace(0, np.nan)` then
`.fillna(df["close"].shift(1))` then `.fillna(df["close"])`.
`prevClose` carries the close of the bar immediately before the current one
(`none` at the head of the series); the close column is never modified, so
passing the bar's own `close` along is exact. -/
def repairAux (prevClose : Option ℚ) : List Bar → List Bar
  | [] => []
  | b :: bs =>
    (if b.open_ = 0 then { b with open_ := prevClose.getD b.close } else b)
      :: repairAux (some b.close) bs

/-- The repair applied to a whole series (no preceding bar before the
first). The `if (df["open"] == 0).any()` guard in the source only skips the
vectorised pass when there is nothing to repair; it does not change the
result, so the unconditional form is equivalent. -/
def repairOpens (bars : List Bar) : List Bar := repairAux none bars

/-- Insertion step for the date sort (`df.sort_values("date")`,
`main.py` line 58). -/
def insertByDate (b : Bar) : List Bar → List Bar
  | [] => [b]
  | c :: cs => if b.date ≤ c.date then b :: c :: cs else c :: insertByDate b cs

/-- `df.sort_values("date")`, `main.py` line 58. -/
def sortByDate (bars : List Bar) : List Bar := bars.foldr insertByDate []

/-- `df.tail(n)`: keep the last `n` rows. -/
def lastN (n : Nat) (l : List Bar) : List Bar := l.drop (l.length - n)

/-- `fetch_stock_data`, `main.py` lines 17-59, as a function of the gateway
outcome.  `gw = .error e` models `ak.stock_zh_a_hist_min_em` raising: the
exception is caught and an empty frame returned (lines 33-35).  An empty
frame short-circuits (lines 37-38).  Otherwise the zero-open repair runs
first (lines 50-54, in gateway row order), then the frame is sorted by date
and truncated to the last `barsCount` rows (line 58). -/
def fetch_stock_data (gw : Except String (List Bar)) (barsCount : Nat) :
    List Bar :=
  match gw with
  | .error _ => []
  | .ok raw =>
    if raw = [] then []
    else lastN barsCount (sortByDate (repairOpens raw))

/-- Trailing mean helper for `rolling(w).mean()`: `prev` holds the closes
already consumed, most recent first, so `c :: prev` is the window material
ending at the current row. -/
def rollingMeanAux (w : Nat) (prev : List ℚ) : List ℚ → List (Option ℚ)
  | [] => []
  | c :: cs =>
    let seen := c :: prev
    (if seen.length < w then none else some ((seen.take w).sum / (w : ℚ)))
      :: rollingMeanAux w seen cs

/-- `df["close"].rolling(w).mean()` (pandas default `min_periods = w`): the
value at row `i` is the arithmetic mean of the `w` closes ending at `i`,
null while fewer than `w` closes have been seen. -/
def rollingMean (w : Nat) (closes : List ℚ) : List (Option ℚ) :=
  rollingMeanAux w [] closes

/-- A series with its appended indicator columns (`Series Store`). -/
structure IndSeries where
  bars : List Bar
  ma20 : List (Option ℚ)
  ma60 : List (Option ℚ)
  deriving DecidableEq

/-- `add_indicators`, `main.py` lines 61-66: appends `ma20` and `ma60`
rolling means of the close column; the bars themselves are untouched. -/
def add_indicators (bars : List Bar) : IndSeries :=
  { bars := bars
    ma20 := rollingMean 20 (bars.map Bar.close)
    ma60 := rollingMean 60 (bars.map Bar.close) }

/-- Outcomes of the external AI providers for one oracle query
(`call_ai_api`, `main.py` lines 151-193).
`qwenKey`/`geminiKey`: the `DASHSCOPE_API_KEY` / `GEMINI_API_KEY`
environment variables.  `qwenResp = .error e` models the Qwen SDK call
raising (caught at line 174).  `geminiResp`: `.error e` models
`requests.post` or the JSON extraction raising (caught at line 190);
`.ok none` models an HTTP status other than 200 (the `if` at line 188 is
simply not taken); `.ok (some t)` models a 200 response whose body parses
to text `t`. -/
structure OracleEnv where
  qwenKey : Option String
  qwenResp : Except String String
  geminiKey : Option String
  geminiResp : Except String (Option String)

/-- The sentinel returned when every provider fails, `main.py` line 193. -/
def AI_FAILURE_SENTINEL : String :=
  "Error: 所有 AI 接口均调用失败，请检查 Secret 设置。"

/-- The Gemini leg of `call_ai_api`, `main.py` lines 178-193: tried only
when `GEMINI_API_KEY` is set; a non-200 status or an exception falls
through to the sentinel. -/
def tryGemini (env : OracleEnv) : String :=
  match env.geminiKey with
  | none => AI_FAILURE_SENTINEL
  | some _ =>
    match env.geminiResp with
    | .ok (some t) => t
    | .ok none => AI_FAILURE_SENTINEL
    | .error _ => AI_FAILURE_SENTINEL

/-- `call_ai_api`, `main.py` lines 151-193: Qwen first when its key is set
(its successful response is returned directly, line 173; an exception only
logs a warning, lines 174-175), then Gemini, then the sentinel. -/
def call_ai_api (env : OracleEnv) : String :=
  match env.qwenKey with
  | none => tryGemini env
  | some _ =>
    match env.qwenResp with
    | .ok t => t
    | .error _ => tryGemini env

/-- Spec-side definition, for the refinement claim about the fallback
chain (spec §6 "Pattern Oracle"): the primary provider's result when it is
configured and succeeds. -/
def primaryResult (env : OracleEnv) : Option String :=
  match env.qwenKey, env.qwenResp with
  | some _, .ok t => some t
  | _, _ => none

/-- Spec-side definition: the secondary provider's result when it is
configured and succeeds. -/
def secondaryResult (env : OracleEnv) : Option String :=
  match env.geminiKey, env.geminiResp with
  | some _, .ok (some t) => some t
  | _, _ => none

/-- Spec-side definition of the fallback chain, written from the spec's
words: providers tried in order, first success wins, exhaustion yields the
sentinel failure string. -/
def fallbackChainSpec (env : OracleEnv) : String :=
  ((primaryResult env).or (secondaryResult env)).getD AI_FAILURE_SENTINEL

/-- `csv_data = df.tail(40).to_csv(index=False)` in `get_scob_prompt`,
`main.py` line 112: the slice of the series serialized into the oracle
prompt. -/
def get_scob_prompt_data (df : List Bar) : List Bar := lastN 40 df

/-- `generate_pdf_report`, `main.py` lines 199-238, as a function of the
PDF writer's outcome: the `open`/`pisa.CreatePDF` block is wrapped in
`try`, returning `True` on success and `False` when it raises (the
function's own result is never checked against the pisa status object). -/
def generate_pdf_report (pdfWrite : Except String Unit) : Bool :=
  match pdfWrite with
  | .ok _ => true
  | .error _ => false

/-- Collaborator outcomes for one (symbol, timeframe) unit.
`gateway = .error e` models the akshare call raising;
`chartRender = .error e` models `mpf.plot` raising (caught and only logged,
`main.py` lines 103-104 — it influences nothing but the log, which is why
no later definition reads it);
`pdfWrite` models the PDF writing block (see `generate_pdf_report`). -/
structure UnitEnv where
  gateway : Except String (List Bar)
  chartRender : Except String Unit
  oracle : OracleEnv
  pdfWrite : Except String Unit

/-- Externally observable calls made while processing one unit.
`chartCall` records the save path handed to the renderer and the bar rows
plotted; `oracleCall` records the bar rows serialized into the prompt. -/
inductive Effect where
  | gatewayCall (code : String)
  | chartCall (path : String) (input : List Bar)
  | oracleCall (sent : List Bar)
  | reportCall (text : String)
  | manifestAppend (path : String)
  deriving DecidableEq

/-- `chart_path`, `main.py` line 261: embeds the original symbol string. -/
def mkChartPath (symbol period ts : String) : String :=
  "reports/" ++ symbol ++ "_" ++ period ++ "m_chart_" ++ ts ++ ".png"

/-- `pdf_path`, `main.py` line 262: embeds the original symbol string. -/
def mkPdfPath (symbol period ts : String) : String :=
  "reports/" ++ symbol ++ "_" ++ period ++ "m_report_" ++ ts ++ ".pdf"

/-- The body of the per-period loop of `process_one_stock`, `main.py`
lines 251-276, for one (symbol, timeframe) unit: fetch (the gateway is
always queried), skip on empty data (line 254), add indicators, render the
chart, query the oracle with the tail of the series, always generate the
PDF report from whatever text the oracle returned, and append its path to
the manifest exactly when the PDF write succeeded (lines 272-274).
Returns the manifest contribution (at most one path) and the effect
trace. -/
def process_unit (symbol period ts : String) (barsCount : Nat)
    (env : UnitEnv) : Option String × List Effect :=
  let code := symbol_code symbol
  let df := fetch_stock_data env.gateway barsCount
  if df = [] then (none, [.gatewayCall code])
  else
    let ind := add_indicators df
    let pdfPath := mkPdfPath symbol period ts
    let text := call_ai_api env.oracle
    -- the chart and the prompt consume the augmented frame (line 255); the
    -- effects record its bar rows — the ma columns hold no price field any
    -- claim constrains
    let base : List Effect :=
      [.gatewayCall code, .chartCall (mkChartPath symbol period ts) ind.bars,
       .oracleCall (get_scob_prompt_data ind.bars), .reportCall text]
    if generate_pdf_report env.pdfWrite then
      (some pdfPath, base ++ [.manifestAppend pdfPath])
    else (none, base)

/-- `target_periods`, `main.py` line 249. -/
def target_periods : List String := ["15", "30", "60"]

/-- `process_one_stock`, `main.py` lines 244-276, under the modelled
collaborator outcomes (one `UnitEnv` per timeframe): the paths appended to
`generated_files`, in loop order. -/
def process_one_stock (symbol ts : String) (barsCount : Nat)
    (envs : String → UnitEnv) : List String :=
  target_periods.filterMap fun period =>
    (process_unit symbol period ts barsCount (envs period)).1

/-- What one iteration of `main`'s symbol loop (`main.py` lines 292-296)
contributes, abstracting the point at which an exception may escape
`process_one_stock`: `emitted` is the list of paths the symbol appended to
the shared `generated_pdfs` list before finishing or raising (Python list
appends persist even when a later statement raises), and `raised` records
whether an exception escaped and was caught by the `except` at line 295.
(`process_one_stock` can raise after an append: e.g. the dtype cast at
`main.py` line 48 is outside `fetch_stock_data`'s `try` and raises on a
malformed frame for a later period.) -/
structure SymbolRun where
  emitted : List String
  raised : Bool
  deriving DecidableEq

/-- The symbol loop of `main`, `main.py` lines 292-296: every symbol is
processed inside `try`/`except`, so a raise is logged and the loop
continues; the shared manifest accumulates every appended path.  Returns
the final manifest and the number of symbols processed. -/
def main_loop : List SymbolRun → List String × Nat
  | [] => ([], 0)
  | r :: rs =>
    let (m, k) := main_loop rs
    (r.emitted ++ m, k + 1)

/-- Spec-side definition for claim C6: the manifest the claim describes,
containing only the paths of symbols that did not raise. -/
def nonFailingManifest (runs : List SymbolRun) : List String :=
  (runs.filter (fun r => !r.raised)).flatMap SymbolRun.emitted

/-- The end-of-run persistence step, `main.py` lines 298-302: the push
list file is written (one path per line) only under `if generated_pdfs:` —
an empty manifest writes nothing, modelled as `none`. -/
def write_push_list (manifest : List String) : Option (List String) :=
  if manifest = [] then none
  else some (manifest.map (fun p => p ++ "\n"))

/-- The bar rows an effect hands to a collaborator (used to state that no
zero-open bar reaches the chart or the oracle). -/
def effectBars : Effect → List Bar
  | .chartCall _ l => l
  | .oracleCall l => l
  | _ => []

/-- A well-formed sample bar for concrete runs. -/
def testBar : Bar :=
  { date := 0, open_ := 10, high := 11, low := 9, close := 10, volume := 100 }

/-- An oracle environment with neither provider key configured: every
provider leg is skipped and `call_ai_api` returns the sentinel. -/
def noKeyOracle : OracleEnv :=
  { qwenKey := none, qwenResp := .error "unused"
    geminiKey := none, geminiResp := .ok none }

/-- A unit whose gateway succeeds, whose oracle chain fails completely
(returning the sentinel), and whose PDF write succeeds. -/
def sentinelEnv : UnitEnv :=
  { gateway := .ok [testBar], chartRender := .ok ()
    oracle := noKeyOracle, pdfWrite := .ok () }

/-- A unit in which both the chart render and every oracle provider fail,
while the gateway and the PDF write succeed. -/
def collabFailEnv : UnitEnv :=
  { gateway := .ok [testBar], chartRender := .error "plot failed"
    oracle := { qwenKey := some "k", qwenResp := .error "qwen down"
                geminiKey := some "g", geminiResp := .error "gemini down" }
    pdfWrite := .ok () }

/-- A symbol iteration that appended one report path and then raised. -/
def emitThenRaise : SymbolRun :=
  { emitted := ["reports/600519_15m_report_t.pdf"], raised := true }

/-- A unit whose gateway raised and whose PDF writer would also raise. -/
def failBothEnv : UnitEnv :=
  { gateway := .error "gateway down", chartRender := .ok ()
    oracle := noKeyOracle, pdfWrite := .error "disk full" }

/-- A bar with the upstream zero-open defect. -/
def zeroOpenBar : Bar :=
  { date := 1, open_ := 0, high := 12, low := 8, close := 11, volume := 50 }

/-- A two-bar gateway response whose second bar has a zero open. -/
def rawSeries : List Bar := [testBar, zeroOpenBar]

/-- `sentinelEnv` with the gateway returning `rawSeries`. -/
def rawSeriesEnv : UnitEnv :=
  { gateway := .ok rawSeries, chartRender := .ok ()
    oracle := noKeyOracle, pdfWrite := .ok () }

/-- The whole run: process every symbol, then persist the push list
(`main`, `main.py` lines 278-302). -/
def main_run (runs : List SymbolRun) : Option (List String) :=
  write_push_list (main_loop runs).1

/-! ## Lemmas about the zero-open repair -/

theorem repairAux_length (p : Option ℚ) (l : List Bar) :
    (repairAux p l).length = l.length := by
  induction l generalizing p with
  | nil => rfl
  | cons b bs ih => simp [repairAux, ih]

/-- Index-wise description of the repair: the bar at `i` keeps its open
unless that open is zero, in which case it becomes the close of the bar at
`i - 1` (the seed `p` at `i = 0`), defaulting to the bar's own close when
no such close exists. -/
theorem repairAux_getElem? (l : List Bar) (p : Option ℚ) (i : Nat) :
    (repairAux p l)[i]? = (l[i]?).map (fun b =>
      if b.open_ = 0 then
        { b with open_ :=
            ((if i = 0 then p else (l[i-1]?).map Bar.close).getD b.close) }
      else b) := by
  induction l generalizing p i with
  | nil => simp [repairAux]
  | cons b bs ih =>
    cases i with
    | zero => simp [repairAux]
    | succ j =>
      simp only [repairAux, List.getElem?_cons_succ]
      rw [ih]
      cases j with
      | zero => simp
      | succ k => simp

theorem repairOpens_getElem? (l : List Bar) (i : Nat) :
    (repairOpens l)[i]? = (l[i]?).map (fun b =>
      if b.open_ = 0 then
        { b with open_ :=
            ((if i = 0 then none else (l[i-1]?).map Bar.close).getD b.close) }
      else b) :=
  repairAux_getElem? l none i

/-- A series that has no zero open is left untouched by the repair. -/
theorem repairAux_eq_self (p : Option ℚ) (l : List Bar)
    (h : ∀ b ∈ l, b.open_ ≠ 0) : repairAux p l = l := by
  induction l generalizing p with
  | nil => rfl
  | cons b bs ih =>
    have hb : b.open_ ≠ 0 := h b (List.mem_cons_self b bs)
    simp [repairAux, hb, ih (some b.close) fun c hc => h c (List.mem_cons_of_mem _ hc)]

/-- When every close is non-zero (and the seed, if any, is non-zero), the
repaired series has no zero open. -/
theorem repairAux_open_ne_zero (l : List Bar) (p : Option ℚ)
    (hl : ∀ b ∈ l, b.close ≠ 0) (hp : ∀ c, p = some c → c ≠ 0) :
    ∀ b ∈ repairAux p l, b.open_ ≠ 0 := by
  induction l generalizing p with
  | nil => intro b hb; simp [repairAux] at hb
  | cons b bs ih =>
    intro b' hb'
    simp only [repairAux, List.mem_cons] at hb'
    rcases hb' with hb' | hb'
    · subst hb'
      by_cases hz : b.open_ = 0
      · simp only [hz, if_pos]
        cases p with
        | none => simpa using hl b (List.mem_cons_self b bs)
        | some c => exact hp c rfl
      · simp only [hz, if_neg, ite_false]
        exact hz
    · exact ih (some b.close)
        (fun c hc => hl c (List.mem_cons_of_mem _ hc))
        (fun c hc => by
          have hcb : c = b.close := by simpa using hc.symm
          exact hcb ▸ hl b (List.mem_cons_self b bs)) b' hb'

theorem repairAux_close_map (p : Option ℚ) (l : List Bar) :
    (repairAux p l).map Bar.close = l.map Bar.close := by
  induction l generalizing p with
  | nil => rfl
  | cons b bs ih =>
    simp only [repairAux, List.map_cons, ih]
    by_cases hz : b.open_ = 0 <;> simp [hz]

/-- Repairing an already repaired series (with non-zero closes) is the
identity: after one pass no open is zero, so the second pass rewrites
nothing. -/
theorem repairOpens_idem (l : List Bar) (hl : ∀ b ∈ l, b.close ≠ 0) :
    repairOpens (repairOpens l) = repairOpens l := by
  have hcl : ∀ b ∈ repairOpens l, b.close ≠ 0 := by
    intro b hb
    have : b.close ∈ (repairOpens l).map Bar.close := List.mem_map_of_mem _ hb
    rw [repairOpens, repairAux_close_map] at this
    obtain ⟨c, hc, hcc⟩ := List.mem_map.mp this
    exact hcc ▸ hl c hc
  exact repairAux_eq_self none _
    (repairAux_open_ne_zero l none hl (fun c hc => by cases hc))

/-! ## Lemmas about sorting, truncation and the fetched series -/

theorem mem_insertByDate {a b : Bar} {l : List Bar} :
    a ∈ insertByDate b l ↔ a = b ∨ a ∈ l := by
  induction l with
  | nil => simp [insertByDate]
  | cons c cs ih =>
    by_cases h : b.date ≤ c.date
    · simp [insertByDate, h]
    · simp [insertByDate, h, ih]
      tauto

theorem mem_sortByDate {a : Bar} {l : List Bar} :
    a ∈ sortByDate l ↔ a ∈ l := by
  induction l with
  | nil => simp [sortByDate]
  | cons b bs ih =>
    show a ∈ insertByDate b (sortByDate bs) ↔ _
    rw [mem_insertByDate, ih]
    simp

theorem mem_of_mem_lastN {a : Bar} {n : Nat} {l : List Bar}
    (h : a ∈ lastN n l) : a ∈ l :=
  List.drop_subset _ l h

/-- Every bar the fetch step hands downstream has a non-zero open,
provided the gateway's closes are positive (the data-model invariant on
bars: prices are positive). -/
theorem fetch_open_ne_zero (gw : Except String (List Bar)) (n : Nat)
    (h : ∀ bs, gw = .ok bs → ∀ b ∈ bs, (0 : ℚ) < b.close) :
    ∀ b ∈ fetch_stock_data gw n, b.open_ ≠ 0 := by
  intro b hb
  cases gw with
  | error e => simp [fetch_stock_data] at hb
  | ok raw =>
    by_cases hraw : raw = []
    · simp [fetch_stock_data, hraw] at hb
    · have hb' : b ∈ repairOpens raw := by
        simp only [fetch_stock_data, hraw, if_neg, ite_false] at hb
        exact mem_sortByDate.mp (mem_of_mem_lastN hb)
      exact repairAux_open_ne_zero raw none
        (fun c hc => ne_of_gt (h raw rfl c hc))
        (fun c hc => by cases hc) b hb'

/-! ## Lemmas about the rolling mean -/

theorem rollingMeanAux_length (w : Nat) (prev xs : List ℚ) :
    (rollingMeanAux w prev xs).length = xs.length := by
  induction xs generalizing prev with
  | nil => rfl
  | cons c cs ih => simp [rollingMeanAux, ih]

/-- Index-wise description of `rollingMeanAux`: at row `i` the window is
the last `w` elements of the `i + 1` rows seen so far together with the
seed `prev`. -/
theorem rollingMeanAux_getElem? (w : Nat) (xs prev : List ℚ) (i : Nat) :
    (rollingMeanAux w prev xs)[i]? =
      if i < xs.length then
        some (if i + 1 + prev.length < w then none
              else some (((((xs.take (i+1)).reverse ++ prev)).take w).sum / (w : ℚ)))
      else none := by
  induction xs generalizing prev i with
  | nil => simp [rollingMeanAux]
  | cons c cs ih =>
    cases i with
    | zero =>
      simp [rollingMeanAux, Nat.add_comm]
    | succ j =>
      simp only [rollingMeanAux, List.getElem?_cons_succ]
      rw [ih]
      have harith : j + 1 + (c :: prev).length = j + 1 + 1 + prev.length := by
        simp [List.length_cons]; omega
      have hwin : (cs.take (j+1)).reverse ++ (c :: prev)
          = ((c :: cs).take (j+1+1)).reverse ++ prev := by
        simp [List.take_succ_cons, List.reverse_cons, List.append_assoc]
      by_cases hj : j < cs.length
      · simp only [hj, if_pos, List.length_cons, Nat.succ_lt_succ_iff]
        have hcond : (j + 1 + (prev.length + 1) < w) ↔ (j + 1 + 1 + prev.length < w) := by
          omega
        rw [hwin]
        simp [hcond]
      · simp [hj, Nat.succ_lt_succ_iff]

/-- Index-wise description of the pandas rolling mean: null while fewer
than `w` closes exist, and otherwise the mean of the `w`-close slice
ending at the index. -/
theorem rollingMean_getElem? (w : Nat) (xs : List ℚ) (i : Nat)
    (hi : i < xs.length) :
    (rollingMean w xs)[i]? =
      some (if i + 1 < w then none
            else some (((xs.take (i+1)).drop (i+1-w)).sum / (w : ℚ))) := by
  rw [rollingMean, rollingMeanAux_getElem?]
  simp only [List.length_nil, Nat.add_zero, List.append_nil, hi, if_pos]
  by_cases hw : i + 1 < w
  · simp [hw]
  · have hlen : (xs.take (i+1)).length = i + 1 := by
      simp [List.length_take]
      omega
    have hsub : w ≤ (xs.take (i+1)).length := by omega
    rw [List.take_reverse]
    simp only [hw, if_neg, ite_false, List.sum_reverse, hlen]

/-! ## Unit-processor characterization -/

/-- Closed form of `process_unit`: skip on empty data, otherwise always
chart + oracle + report in order, with a manifest entry exactly when the
PDF write succeeded. -/
theorem process_unit_eq (symbol period ts : String) (n : Nat) (env : UnitEnv) :
    process_unit symbol period ts n env =
      (if fetch_stock_data env.gateway n = [] then
        (none, [.gatewayCall (symbol_code symbol)])
      else if generate_pdf_report env.pdfWrite then
        (some (mkPdfPath symbol period ts),
         [.gatewayCall (symbol_code symbol),
          .chartCall (mkChartPath symbol period ts) (fetch_stock_data env.gateway n),
          .oracleCall (get_scob_prompt_data (fetch_stock_data env.gateway n)),
          .reportCall (call_ai_api env.oracle),
          .manifestAppend (mkPdfPath symbol period ts)])
      else
        (none,
         [.gatewayCall (symbol_code symbol),
          .chartCall (mkChartPath symbol period ts) (fetch_stock_data env.gateway n),
          .oracleCall (get_scob_prompt_data (fetch_stock_data env.gateway n)),
          .reportCall (call_ai_api env.oracle)])) := by
  by_cases hdf : fetch_stock_data env.gateway n = [] <;>
    by_cases hpdf : generate_pdf_report env.pdfWrite <;>
      simp [process_unit, add_indicators, hdf, hpdf]

/-- The first bar of the series, when its open is zero, gets its own
close. -/
theorem repairOpens_head (l : List Bar) (h0 : 0 < l.length)
    (hz : (l.get ⟨0, h0⟩).open_ = 0) :
    (repairOpens l)[0]? =
      some { l.get ⟨0, h0⟩ with open_ := (l.get ⟨0, h0⟩).close } := by
  simp only [List.get_eq_getElem] at hz ⊢
  rw [repairOpens_getElem?, List.getElem?_eq_getElem h0]
  simp [hz]

/-- A zero-open bar that is not first gets the previous bar's close. -/
theorem repairOpens_interior (l : List Bar) (j : Nat) (hj : j + 1 < l.length)
    (hz : (l.get ⟨j + 1, hj⟩).open_ = 0) :
    (repairOpens l)[j + 1]? =
      some { l.get ⟨j + 1, hj⟩ with
               open_ := (l.get ⟨j, by omega⟩).close } := by
  have hjlt : j < l.length := by omega
  simp only [List.get_eq_getElem] at hz ⊢
  rw [repairOpens_getElem?, List.getElem?_eq_getElem hj]
  simp [hz, Nat.add_sub_cancel, List.getElem?_eq_getElem hjlt]

/-! ## Claim theorems -/

/-- C2: after sanitization a zero-open bar takes the close of the
immediately preceding bar (its own close at the head of the series), the
repair precedes indicator computation and the oracle query, and — under
the data-model invariant that gateway closes are positive — no zero open
reaches the fetched series, the chart input or the serialized series sent
to the oracle. -/
theorem zero_open_repaired_before_downstream (raw : List Bar)
    (symbol period ts : String) (n : Nat) (env : UnitEnv)
    (hcl : ∀ bs, env.gateway = .ok bs → ∀ b ∈ bs, (0 : ℚ) < b.close) :
    (∀ (h0 : 0 < raw.length), (raw.get ⟨0, h0⟩).open_ = 0 →
      (repairOpens raw)[0]? =
        some { raw.get ⟨0, h0⟩ with open_ := (raw.get ⟨0, h0⟩).close }) ∧
    (∀ j (hj : j + 1 < raw.length), (raw.get ⟨j + 1, hj⟩).open_ = 0 →
      (repairOpens raw)[j + 1]? =
        some { raw.get ⟨j + 1, hj⟩ with
                 open_ := (raw.get ⟨j, by omega⟩).close }) ∧
    (∀ b ∈ fetch_stock_data env.gateway n, b.open_ ≠ 0) ∧
    (∀ e ∈ (process_unit symbol period ts n env).2,
      ∀ b ∈ effectBars e, b.open_ ≠ 0) := by
  have hopen := fetch_open_ne_zero env.gateway n hcl
  refine ⟨repairOpens_head raw, repairOpens_interior raw, hopen, ?_⟩
  intro e he b hb
  rw [process_unit_eq] at he
  by_cases hdf : fetch_stock_data env.gateway n = []
  · simp only [hdf, if_pos, List.mem_singleton] at he
    subst he
    simp [effectBars] at hb
  · by_cases hpdf : generate_pdf_report env.pdfWrite
    · simp [hdf, hpdf] at he
      rcases he with rfl | rfl | rfl | rfl | rfl
      · simp [effectBars] at hb
      · simp only [effectBars] at hb
        exact hopen b hb
      · simp only [effectBars, get_scob_prompt_data] at hb
        exact hopen b (mem_of_mem_lastN hb)
      · simp [effectBars] at hb
      · simp [effectBars] at hb
    · simp [hdf, hpdf] at he
      rcases he with rfl | rfl | rfl | rfl
      · simp [effectBars] at hb
      · simp only [effectBars] at hb
        exact hopen b hb
      · simp only [effectBars, get_scob_prompt_data] at hb
        exact hopen b (mem_of_mem_lastN hb)
      · simp [effectBars] at hb

/-- Witness for C2 at a concrete series with a zero open at index 1. -/
theorem zero_open_repaired_before_downstream_witness :
    (∀ bs, rawSeriesEnv.gateway = Except.ok bs →
        ∀ b ∈ bs, (0 : ℚ) < b.close) ∧
    ((∀ (h0 : 0 < rawSeries.length), (rawSeries.get ⟨0, h0⟩).open_ = 0 →
        (repairOpens rawSeries)[0]? =
          some { rawSeries.get ⟨0, h0⟩ with
                   open_ := (rawSeries.get ⟨0, h0⟩).close }) ∧
     (∀ j (hj : j + 1 < rawSeries.length),
        (rawSeries.get ⟨j + 1, hj⟩).open_ = 0 →
        (repairOpens rawSeries)[j + 1]? =
          some { rawSeries.get ⟨j + 1, hj⟩ with
                   open_ := (rawSeries.get ⟨j, by omega⟩).close }) ∧
     (∀ b ∈ fetch_stock_data rawSeriesEnv.gateway 100, b.open_ ≠ 0) ∧
     (∀ e ∈ (process_unit "600519" "60" "t" 100 rawSeriesEnv).2,
        ∀ b ∈ effectBars e, b.open_ ≠ 0)) :=
  ⟨by intro bs h
      injection h with h'
      subst h'
      decide,
   zero_open_repaired_before_downstream rawSeries "600519" "60" "t" 100
     rawSeriesEnv
     (by intro bs h
         injection h with h'
         subst h'
         decide)⟩

/-- C3: the appended moving-average column (windows 20 and 60 in
`add_indicators`) is null at index `i` iff fewer than `w` bars exist at
indices `≤ i`, otherwise equals the arithmetic mean of the `w` closes
ending at `i`; the computation is deterministic (a function of the close
column) and causal: the value at `i` only depends on the first `i + 1`
closes. -/
theorem ma_column_characterization (w : Nat) (bars : List Bar) (i : Nat)
    (hi : i < bars.length) :
    (add_indicators bars).ma20 = rollingMean 20 (bars.map Bar.close) ∧
    (add_indicators bars).ma60 = rollingMean 60 (bars.map Bar.close) ∧
    (rollingMean w (bars.map Bar.close)).length = bars.length ∧
    ((rollingMean w (bars.map Bar.close))[i]? = some none ↔ i + 1 < w) ∧
    (w ≤ i + 1 →
      (rollingMean w (bars.map Bar.close))[i]? =
        some (some ((((bars.map Bar.close).take (i + 1)).drop (i + 1 - w)).sum
          / (w : ℚ)))) ∧
    (rollingMean w (bars.map Bar.close))[i]? =
      (rollingMean w ((bars.map Bar.close).take (i + 1)))[i]? := by
  have hxi : i < (bars.map Bar.close).length := by simpa using hi
  refine ⟨rfl, rfl, ?_, ?_, ?_, ?_⟩
  · rw [rollingMean, rollingMeanAux_length, List.length_map]
  · rw [rollingMean_getElem? w _ i hxi]
    by_cases hw : i + 1 < w
    · simp [hw]
    · simp [hw]
  · intro hwle
    have hw : ¬ i + 1 < w := by omega
    rw [rollingMean_getElem? w _ i hxi]
    simp [hw]
  · have hxi2 : i < ((bars.map Bar.close).take (i + 1)).length := by
      rw [List.length_take]
      omega
    rw [rollingMean_getElem? w _ i hxi, rollingMean_getElem? w _ i hxi2]
    simp [List.take_take]

/-- Witness for C3 at window 2 and index 1 of the two-bar series. -/
theorem ma_column_characterization_witness :
    1 < rawSeries.length ∧
    ((add_indicators rawSeries).ma20 = rollingMean 20 (rawSeries.map Bar.close) ∧
     (add_indicators rawSeries).ma60 = rollingMean 60 (rawSeries.map Bar.close) ∧
     (rollingMean 2 (rawSeries.map Bar.close)).length = rawSeries.length ∧
     ((rollingMean 2 (rawSeries.map Bar.close))[1]? = some none ↔ 1 + 1 < 2) ∧
     (2 ≤ 1 + 1 →
       (rollingMean 2 (rawSeries.map Bar.close))[1]? =
         some (some ((((rawSeries.map Bar.close).take (1 + 1)).drop (1 + 1 - 2)).sum
           / (2 : ℚ)))) ∧
     (rollingMean 2 (rawSeries.map Bar.close))[1]? =
       (rollingMean 2 ((rawSeries.map Bar.close).take (1 + 1)))[1]?) :=
  ⟨by decide, ma_column_characterization 2 rawSeries 1 (by decide)⟩

/-- C4: on a series with positive closes the repair is idempotent, and a
zero-open bar not at the first index receives the previous bar's close. -/
theorem repair_idempotent_and_prev_close (l : List Bar)
    (hl : ∀ b ∈ l, (0 : ℚ) < b.close) :
    repairOpens (repairOpens l) = repairOpens l ∧
    (∀ j (hj : j + 1 < l.length), (l.get ⟨j + 1, hj⟩).open_ = 0 →
      (repairOpens l)[j + 1]? =
        some { l.get ⟨j + 1, hj⟩ with
                 open_ := (l.get ⟨j, by omega⟩).close }) :=
  ⟨repairOpens_idem l (fun b hb => ne_of_gt (hl b hb)),
   repairOpens_interior l⟩

/-- Witness for C4 on the concrete two-bar series. -/
theorem repair_idempotent_and_prev_close_witness :
    (∀ b ∈ rawSeries, (0 : ℚ) < b.close) ∧
    (repairOpens (repairOpens rawSeries) = repairOpens rawSeries ∧
     (∀ j (hj : j + 1 < rawSeries.length),
        (rawSeries.get ⟨j + 1, hj⟩).open_ = 0 →
        (repairOpens rawSeries)[j + 1]? =
          some { rawSeries.get ⟨j + 1, hj⟩ with
                   open_ := (rawSeries.get ⟨j, by omega⟩).close })) :=
  ⟨by decide, repair_idempotent_and_prev_close rawSeries (by decide)⟩

/-- A unit whose fetched series is empty is skipped right after the
gateway call. -/
theorem process_unit_skip_of_empty (symbol period ts : String) (n : Nat)
    (env : UnitEnv) (hdf : fetch_stock_data env.gateway n = []) :
    process_unit symbol period ts n env =
      (none, [.gatewayCall (symbol_code symbol)]) := by
  rw [process_unit_eq]
  simp [hdf]

/-- C1 counterexample: a unit whose oracle chain fails completely (the
sentinel failure string is the verdict text) still calls the Report
Assembler and still appends its artifact path to the manifest — the claim
says such a unit makes no Report Assembler call and returns nothing. -/
theorem report_called_despite_sentinel :
    call_ai_api sentinelEnv.oracle = AI_FAILURE_SENTINEL ∧
    (process_unit "600519" "60" "t" 100 sentinelEnv).1 =
      some (mkPdfPath "600519" "60" "t") ∧
    Effect.reportCall AI_FAILURE_SENTINEL ∈
      (process_unit "600519" "60" "t" 100 sentinelEnv).2 := by
  refine ⟨rfl, ?_, ?_⟩ <;> decide

/-- C1 amended: the Unit Processor performs no verdict parsing at all —
for every unit with a non-empty fetched series the Report Assembler is
called with the oracle's raw text (sentinel included), and the artifact
path is appended to the manifest iff the PDF write succeeds. -/
theorem report_assembler_unconditional (symbol period ts : String) (n : Nat)
    (env : UnitEnv) :
    ((process_unit symbol period ts n env).1 =
      if fetch_stock_data env.gateway n ≠ [] ∧
          generate_pdf_report env.pdfWrite = true then
        some (mkPdfPath symbol period ts)
      else none) ∧
    (Effect.reportCall (call_ai_api env.oracle) ∈
        (process_unit symbol period ts n env).2 ↔
      fetch_stock_data env.gateway n ≠ []) := by
  rw [process_unit_eq]
  by_cases hdf : fetch_stock_data env.gateway n = [] <;>
    by_cases hpdf : generate_pdf_report env.pdfWrite <;>
      simp [hdf, hpdf]

/-- C5: a unit whose gateway raises or returns an empty series is skipped:
no chart render, no oracle call, no report call, no manifest entry. -/
theorem empty_gateway_skips (symbol period ts : String) (n : Nat)
    (env : UnitEnv)
    (h : (∃ e, env.gateway = .error e) ∨ env.gateway = .ok []) :
    process_unit symbol period ts n env =
      (none, [.gatewayCall (symbol_code symbol)]) := by
  have hdf : fetch_stock_data env.gateway n = [] := by
    rcases h with ⟨e, he⟩ | he <;> simp [fetch_stock_data, he]
  exact process_unit_skip_of_empty symbol period ts n env hdf

/-- Witness for C5 with an empty gateway response. -/
theorem empty_gateway_skips_witness :
    ((∃ e, ({ sentinelEnv with gateway := .ok [] } : UnitEnv).gateway
        = .error e) ∨
      ({ sentinelEnv with gateway := .ok [] } : UnitEnv).gateway = .ok []) ∧
    process_unit "600519" "30" "t" 100 { sentinelEnv with gateway := .ok [] } =
      (none, [.gatewayCall (symbol_code "600519")]) :=
  ⟨Or.inr rfl,
   empty_gateway_skips "600519" "30" "t" 100
     { sentinelEnv with gateway := .ok [] } (Or.inr rfl)⟩

/-- C8 counterexample: a unit in which internal failures occur (chart
render raises, every oracle provider fails) is not converted into a
"no artifact" outcome — the artifact is still emitted. -/
theorem artifact_emitted_despite_internal_failures :
    collabFailEnv.chartRender = .error "plot failed" ∧
    call_ai_api collabFailEnv.oracle = AI_FAILURE_SENTINEL ∧
    (process_unit "600519" "15" "t" 100 collabFailEnv).1 =
      some (mkPdfPath "600519" "15" "t") := by
  refine ⟨rfl, rfl, ?_⟩
  decide

/-- C8 amended: the Unit Processor propagates no modelled collaborator
failure: a chart-render failure changes nothing observable, a gateway
failure or a PDF-write failure yields a no-artifact outcome, and the
result is always either nothing or the unit's single artifact path —
but chart and oracle failures do not suppress emission. -/
theorem unit_failure_absorption (symbol period ts : String) (n : Nat)
    (env : UnitEnv) :
    (∀ msg, process_unit symbol period ts n
        { env with chartRender := .error msg } =
      process_unit symbol period ts n env) ∧
    (∀ msg, env.gateway = .error msg →
      process_unit symbol period ts n env =
        (none, [.gatewayCall (symbol_code symbol)])) ∧
    (∀ msg, env.pdfWrite = .error msg →
      (process_unit symbol period ts n env).1 = none) ∧
    ((process_unit symbol period ts n env).1 = none ∨
     (process_unit symbol period ts n env).1 =
       some (mkPdfPath symbol period ts)) := by
  refine ⟨fun msg => rfl, ?_, ?_, ?_⟩
  · intro msg hmsg
    exact process_unit_skip_of_empty symbol period ts n env
      (by simp [fetch_stock_data, hmsg])
  · intro msg hmsg
    rw [process_unit_eq]
    have : generate_pdf_report env.pdfWrite = false := by
      rw [hmsg]; rfl
    by_cases hdf : fetch_stock_data env.gateway n = [] <;> simp [hdf, this]
  · rw [process_unit_eq]
    by_cases hdf : fetch_stock_data env.gateway n = [] <;>
      by_cases hpdf : generate_pdf_report env.pdfWrite <;>
        simp [hdf, hpdf]

/-- Witness for C8: with the gateway and the PDF writer both failing, the
unit yields no artifact and no exception. -/
theorem unit_failure_absorption_witness :
    process_unit "600519" "15" "t" 100 failBothEnv =
      (none, [.gatewayCall (symbol_code "600519")]) :=
  (unit_failure_absorption "600519" "15" "t" 100 failBothEnv).2.1
    "gateway down" rfl

/-- C9: `call_ai_api` realizes the spec's fallback chain exactly: primary
provider first when configured, secondary on primary failure or absent
primary credentials, and the fixed sentinel failure string when every
provider fails or none is configured; no case raises. -/
theorem fallback_chain_refinement (env : OracleEnv) :
    call_ai_api env = fallbackChainSpec env := by
  rcases env with ⟨qk, qr, gk, gr⟩
  cases qk <;> cases qr <;> cases gk <;>
    rcases gr with _ | _ | _ <;>
      rfl

/-- C10: the gateway is queried with exactly the digit characters of the
symbol (in order, every non-digit removed), while the chart and report
artifact paths embed the original unmodified symbol string. -/
theorem gateway_code_digits_paths_original (symbol period ts : String)
    (n : Nat) (env : UnitEnv) :
    (symbol_code symbol).toList = symbol.toList.filter Char.isDigit ∧
    ((symbol_code symbol).toList.all Char.isDigit = true) ∧
    ((process_unit symbol period ts n env).2.head? =
      some (.gatewayCall (symbol_code symbol))) ∧
    ((process_unit symbol period ts n env).2[1]? = none ∨
     (process_unit symbol period ts n env).2[1]? =
       some (.chartCall
         ("reports/" ++ symbol ++ "_" ++ period ++ "m_chart_" ++ ts ++ ".png")
         (fetch_stock_data env.gateway n))) ∧
    ((process_unit symbol period ts n env).1 = none ∨
     (process_unit symbol period ts n env).1 =
       some ("reports/" ++ symbol ++ "_" ++ period ++ "m_report_" ++ ts
         ++ ".pdf")) := by
  refine ⟨rfl, ?_, ?_, ?_, ?_⟩
  · rw [List.all_eq_true]
    intro c hc
    exact (List.mem_filter.mp hc).2
  · rw [process_unit_eq]
    by_cases hdf : fetch_stock_data env.gateway n = [] <;>
      by_cases hpdf : generate_pdf_report env.pdfWrite <;>
        simp [hdf, hpdf]
  · rw [process_unit_eq]
    by_cases hdf : fetch_stock_data env.gateway n = [] <;>
      by_cases hpdf : generate_pdf_report env.pdfWrite <;>
        simp [hdf, hpdf, mkChartPath]
  · rw [process_unit_eq]
    by_cases hdf : fetch_stock_data env.gateway n = [] <;>
      by_cases hpdf : generate_pdf_report env.pdfWrite <;>
        simp [hdf, hpdf, mkPdfPath]

/-- Two symbol iterations: the first emits one artifact and finishes, the
second raises before emitting anything. -/
def mixedRuns : List SymbolRun :=
  [{ emitted := ["reports/600001_15m_report_t.pdf"], raised := false },
   { emitted := [], raised := true }]

/-- C6 counterexample: a symbol that appended an artifact path and then
raised leaves that path in the final manifest, so the manifest is not
"exactly the artifact paths emitted by the non-failing symbols" — the
failing symbol's pre-raise append survives (Python list appends persist
when a later statement raises; e.g. the dtype cast at `main.py` line 48 is
outside `fetch_stock_data`'s `try` and can raise on a later period after
an earlier period already emitted). -/
theorem manifest_keeps_prefailure_paths :
    (main_loop [emitThenRaise]).1 = ["reports/600519_15m_report_t.pdf"] ∧
    (main_loop [emitThenRaise]).2 = 1 ∧
    nonFailingManifest [emitThenRaise] = [] ∧
    (main_loop [emitThenRaise]).1 ≠ nonFailingManifest [emitThenRaise] := by
  refine ⟨rfl, rfl, rfl, ?_⟩
  decide

/-- C6 amended: a raising symbol is caught at the batch boundary and every
symbol is still processed, the run terminating normally with the manifest
holding every appended path in order — which equals exactly the
non-failing symbols' paths provided each failing symbol appended nothing
before its exception. -/
theorem batch_fault_isolation (runs : List SymbolRun)
    (h : ∀ r ∈ runs, r.raised = true → r.emitted = []) :
    (main_loop runs).2 = runs.length ∧
    (main_loop runs).1 = runs.flatMap SymbolRun.emitted ∧
    (main_loop runs).1 = nonFailingManifest runs := by
  induction runs with
  | nil => exact ⟨rfl, rfl, rfl⟩
  | cons r rs ih =>
    obtain ⟨h2, h1, h3⟩ := ih (fun x hx hr => h x (List.mem_cons_of_mem _ hx) hr)
    refine ⟨?_, ?_, ?_⟩
    · simp [main_loop, h2]
    · simp [main_loop, h1]
    · by_cases hr : r.raised = true
      · have he : r.emitted = [] := h r (List.mem_cons_self r rs) hr
        simp only [main_loop, nonFailingManifest, List.filter_cons, hr,
          Bool.not_true, List.flatMap_cons, he, List.nil_append]
        simpa [nonFailingManifest] using h3
      · simp [main_loop, nonFailingManifest, hr, h3]

/-- Witness for C6 on a batch where the failing symbol emitted nothing. -/
theorem batch_fault_isolation_witness :
    (∀ r ∈ mixedRuns, r.raised = true → r.emitted = []) ∧
    ((main_loop mixedRuns).2 = mixedRuns.length ∧
     (main_loop mixedRuns).1 = mixedRuns.flatMap SymbolRun.emitted ∧
     (main_loop mixedRuns).1 = nonFailingManifest mixedRuns) :=
  ⟨by decide, batch_fault_isolation mixedRuns (by decide)⟩

/-- C7 counterexample: a completed run with an empty manifest writes no
push-list file at all (`if generated_pdfs:` at `main.py` line 298), so the
manifest is not "persisted as a flat text file … also when no unit emitted
an artifact". -/
theorem push_list_absent_when_empty :
    main_loop [] = ([], 0) ∧
    write_push_list [] = none ∧
    main_run [] = none :=
  ⟨rfl, rfl, rfl⟩

/-- C7 amended: the run always terminates normally; the push list is
written once, one artifact path per line, iff at least one artifact was
emitted — an empty manifest is represented by not writing the file. -/
theorem push_list_persistence (runs : List SymbolRun) :
    ((main_loop runs).1 = [] → main_run runs = none) ∧
    ((main_loop runs).1 ≠ [] →
      main_run runs =
        some (((main_loop runs).1).map (fun p => p ++ "\n"))) := by
  constructor
  · intro h
    simp [main_run, write_push_list, h]
  · intro h
    simp [main_run, write_push_list, h]

/-- Witness for C7 on a run with one emitted artifact. -/
theorem push_list_persistence_witness :
    (main_loop mixedRuns).1 ≠ [] ∧
    main_run mixedRuns =
      some (((main_loop mixedRuns).1).map (fun p => p ++ "\n")) :=
  ⟨by decide, (push_list_persistence mixedRuns).2 (by decide)⟩

end Wyckoff
